import Mathlib

/-!
Verification of the health-agent repository.

This development shallowly embeds the tool functions and the tool-dispatch
conversation loop of src/advanced_health_agent.py, and the session
serialization of src/health_agent.py, and proves properties about them.

Modelling conventions:
* Python strings that undergo computation (lowercasing, trimming, joining,
  splitting) are embedded as List Char; strings that are only carried around
  (message contents, tool names, call ids) are embedded as String.
* Python floats are embedded as exact rationals.  The float rounding of
  round(x, n) is embedded as exact rational rounding half to even; the
  sub-microsecond float error of timedelta(hours=...) is below the rounding
  threshold at every input considered, so timedelta is embedded as exact
  rational-to-microsecond rounding half to even.
* Python exceptions (ZeroDivisionError, ValueError from datetime.replace,
  TypeError from keyword-argument mismatch) are embedded as Except.error
  carrying the exception text; exact CPython texts are kept where they are
  fixed and abbreviated where they depend on runtime details no claim
  observes.
* datetime.now() is embedded by passing the current second-plus-microsecond
  of the wall clock (a number below 60000000) as an explicit argument,
  because datetime.replace(hour=..., minute=...) keeps the second and
  microsecond of the clock reading.
* The display repr of Python floats inside f-strings is abstracted by a
  total formatter ratRepr; no property proved below depends on its exact
  digits, only on messages being nonempty.
* Python set iteration order is unspecified; list(set(xs)) is embedded as
  List.dedup, and properties about deduplicated lists are stated up to
  membership.
-/

deriving instance DecidableEq for Except

/-- Conversion from a Lean string literal to the List Char embedding of
Python strings. -/
def pstr (s : String) : List Char := s.data

/-- Rounding of a rational to the nearest integer, ties to even: the
behaviour of round() in Python (on the idealized exact value). -/
def pyRoundQ (q : ℚ) : ℤ :=
  let f := ⌊q⌋
  let r := q - f
  if r < 1/2 then f
  else if 1/2 < r then f + 1
  else if f % 2 = 0 then f else f + 1

/-- Embedding of round(q, p): round to p decimal places, ties to even. -/
def roundTo (p : ℕ) (q : ℚ) : ℚ := (pyRoundQ (q * 10 ^ p) : ℚ) / 10 ^ p

/-- Decimal digits of a natural number. -/
def natRepr (n : ℕ) : List Char := Nat.toDigits 10 n

/-- Display form of an integer. -/
def intRepr (i : ℤ) : List Char :=
  (if i < 0 then ['-'] else []) ++ natRepr i.natAbs

/-- Abstraction of the Python float repr used inside f-strings.  Claims only
use that messages are nonempty, never their digits. -/
def ratRepr (q : ℚ) : List Char :=
  intRepr q.num ++ (if q.den = 1 then [] else ['/'] ++ natRepr q.den)

-- ============= TOOLS/FUNCTIONS THE AGENT CAN USE =============

/-- Result dict of calculate_bmi. -/
structure BmiResult where
  bmi : ℚ
  category : List Char
  message : List Char
deriving DecidableEq

/-- Embedding of calculate_bmi (src/advanced_health_agent.py, lines 17-35).
A zero divisor raises ZeroDivisionError in Python, embedded as Except.error. -/
def calculate_bmi (weight_kg height_cm : ℚ) : Except String BmiResult :=
  let height_m := height_cm / 100
  if height_m ^ 2 = 0 then .error "float division by zero"
  else
    let bmi := weight_kg / height_m ^ 2
    let category : List Char :=
      if bmi < 18.5 then pstr "Underweight"
      else if bmi < 25 then pstr "Normal weight"
      else if bmi < 30 then pstr "Overweight"
      else pstr "Obese"
    .ok { bmi := roundTo 2 bmi
        , category := category
        , message := pstr "Your BMI is " ++ ratRepr (roundTo 2 bmi) ++
            pstr " (" ++ category ++ pstr ")" }

/-- Result dict of calculate_daily_water. -/
structure WaterResult where
  liters : ℚ
  cups : ℚ
  message : List Char
deriving DecidableEq

/-- Embedding of multipliers.get(activity_level, 1.0) from
calculate_daily_water. -/
def multipliersGet (activity_level : List Char) : ℚ :=
  if activity_level = pstr "sedentary" then 1.0
  else if activity_level = pstr "moderate" then 1.2
  else if activity_level = pstr "active" then 1.5
  else 1.0

/-- Embedding of calculate_daily_water (src/advanced_health_agent.py,
lines 38-57). -/
def calculate_daily_water (weight_kg : ℚ) (activity_level : List Char) :
    WaterResult :=
  let base_ml := weight_kg * 33
  let total_ml := base_ml * multipliersGet activity_level
  let liters := total_ml / 1000
  let cups := total_ml / 240
  { liters := roundTo 2 liters
  , cups := roundTo 1 cups
  , message := pstr "You should drink approximately " ++
      ratRepr (roundTo 1 liters) ++ pstr "L (" ++ intRepr (pyRoundQ cups) ++
      pstr " cups) of water daily" }

-- ============= CLAIMS ABOUT THE PURE CALCULATORS =============

/-- C7: for every positive weight and height, calculate_bmi returns normally
with bmi equal to weight divided by the squared height in meters, rounded to
two decimals, and with the category given by the documented thresholds
(below 18.5 Underweight, then Normal weight below 25, Overweight below 30,
else Obese). -/
theorem calculate_bmi_spec (w h : ℚ) (hw : 0 < w) (hh : 0 < h) :
    ∃ r, calculate_bmi w h = .ok r ∧
      r.bmi = roundTo 2 (w / (h / 100) ^ 2) ∧
      (w / (h / 100) ^ 2 < 18.5 → r.category = pstr "Underweight") ∧
      (18.5 ≤ w / (h / 100) ^ 2 ∧ w / (h / 100) ^ 2 < 25 →
        r.category = pstr "Normal weight") ∧
      (25 ≤ w / (h / 100) ^ 2 ∧ w / (h / 100) ^ 2 < 30 →
        r.category = pstr "Overweight") ∧
      (30 ≤ w / (h / 100) ^ 2 → r.category = pstr "Obese") := by
  have hne : ((h : ℚ) / 100) ^ 2 ≠ 0 :=
    pow_ne_zero _ (div_ne_zero (ne_of_gt hh) (by norm_num))
  simp only [calculate_bmi, if_neg hne]
  refine ⟨_, rfl, rfl, ?_, ?_, ?_, ?_⟩
  · intro h1
    show (if _ < (18.5 : ℚ) then _ else _) = _
    rw [if_pos h1]
  · rintro ⟨h1, h2⟩
    show (if _ < (18.5 : ℚ) then _ else _) = _
    rw [if_neg (not_lt.mpr h1), if_pos h2]
  · rintro ⟨h1, h2⟩
    have h0 : ¬ (w / (h / 100) ^ 2 < 18.5) :=
      not_lt.mpr (le_trans (by norm_num) h1)
    show (if _ < (18.5 : ℚ) then _ else _) = _
    rw [if_neg h0, if_neg (not_lt.mpr h1), if_pos h2]
  · intro h1
    have h0 : ¬ (w / (h / 100) ^ 2 < 18.5) :=
      not_lt.mpr (le_trans (by norm_num) h1)
    have h0b : ¬ (w / (h / 100) ^ 2 < 25) :=
      not_lt.mpr (le_trans (by norm_num) h1)
    show (if _ < (18.5 : ℚ) then _ else _) = _
    rw [if_neg h0, if_neg h0b, if_neg (not_lt.mpr h1)]

/-- Witness for C7 at weight 70 kg and height 175 cm: the bmi rounds to 22.86
and the category is Normal weight. -/
theorem calculate_bmi_spec_witness :
    (0 : ℚ) < 70 ∧ (0 : ℚ) < 175 ∧
      roundTo 2 (70 / ((175 : ℚ) / 100) ^ 2) = 22.86 ∧
      (∃ r, calculate_bmi 70 175 = .ok r ∧
        r.bmi = roundTo 2 (70 / ((175 : ℚ) / 100) ^ 2) ∧
        (18.5 ≤ 70 / ((175 : ℚ) / 100) ^ 2 ∧ 70 / ((175 : ℚ) / 100) ^ 2 < 25 →
          r.category = pstr "Normal weight")) := by
  refine ⟨by norm_num, by norm_num, ?_, ?_⟩
  · norm_num [roundTo, pyRoundQ, Rat.floor_def]
  · obtain ⟨r, h1, h2, _, h4, _, _⟩ :=
      calculate_bmi_spec 70 175 (by norm_num) (by norm_num)
    exact ⟨r, h1, h2, h4⟩

/-- C6: for every positive weight and every activity level, the liters and
cups fields of calculate_daily_water are weight times 33 times the activity
multiplier, divided by 1000 and by 240 respectively (rounded for display to
two and one decimals), where the multiplier is 1.0 for sedentary, 1.2 for
moderate, 1.5 for active, and defaults to 1.0 for any unrecognized level
without erroring. -/
theorem calculate_daily_water_spec (w : ℚ) (lvl : List Char) (hw : 0 < w) :
    (calculate_daily_water w lvl).liters =
        roundTo 2 (w * 33 * multipliersGet lvl / 1000) ∧
      (calculate_daily_water w lvl).cups =
        roundTo 1 (w * 33 * multipliersGet lvl / 240) ∧
      multipliersGet (pstr "sedentary") = 1.0 ∧
      multipliersGet (pstr "moderate") = 1.2 ∧
      multipliersGet (pstr "active") = 1.5 ∧
      (lvl ≠ pstr "sedentary" → lvl ≠ pstr "moderate" → lvl ≠ pstr "active" →
        multipliersGet lvl = 1.0) := by
  refine ⟨rfl, rfl, ?_, ?_, ?_, ?_⟩
  · unfold multipliersGet
    rw [if_pos rfl]
  · unfold multipliersGet
    rw [if_neg (by decide), if_pos rfl]
  · unfold multipliersGet
    rw [if_neg (by decide), if_neg (by decide), if_pos rfl]
  · intro h1 h2 h3
    unfold multipliersGet
    rw [if_neg h1, if_neg h2, if_neg h3]

/-- Witness for C6 at weight 65 kg and moderate activity: the exact liters
value 2.574 is within 0.01 of the 2.58 quoted in the specification and its
display rounding is 2.57. -/
theorem calculate_daily_water_spec_witness :
    (0 : ℚ) < 65 ∧
      (calculate_daily_water 65 (pstr "moderate")).liters =
        roundTo 2 (65 * 33 * multipliersGet (pstr "moderate") / 1000) ∧
      65 * 33 * multipliersGet (pstr "moderate") / 1000 = 2.574 ∧
      |(65 * 33 * multipliersGet (pstr "moderate") / 1000 : ℚ) - 2.58| < 1/100 ∧
      roundTo 2 ((2.574 : ℚ)) = 2.57 := by
  have hm : multipliersGet (pstr "moderate") = 1.2 :=
    (calculate_daily_water_spec 65 (pstr "moderate") (by norm_num)).2.2.2.1
  refine ⟨by norm_num, (calculate_daily_water_spec 65 (pstr "moderate")
    (by norm_num)).1, ?_, ?_, ?_⟩
  · rw [hm]; norm_num
  · rw [hm, abs_lt]
    constructor <;> norm_num
  · norm_num [roundTo, pyRoundQ, Rat.floor_def]

-- ============= MEDICATION REMINDER SCHEDULING =============

/-- Rounding num/den to the nearest natural, ties to even: the rounding
datetime.timedelta applies when converting fractional hours to microseconds
(the sub-microsecond float error of interval_hours * i is below the rounding
threshold, so the exact rational value is rounded). -/
def roundHalfEvenDiv (num den : ℕ) : ℕ :=
  let q := num / den
  let r := num % den
  if den < 2 * r then q + 1
  else if 2 * r < den then q
  else if q % 2 = 0 then q else q + 1

/-- Two-digit zero-padded decimal display, as strftime uses for %H and %M. -/
def twoDigits (n : ℕ) : List Char := [Nat.digitChar (n / 10), Nat.digitChar (n % 10)]

/-- Embedding of strftime("%H:%M"). -/
def fmtHHMM (hour minute : ℕ) : List Char := twoDigits hour ++ [':'] ++ twoDigits minute

/-- Result dict of set_medication_reminder. -/
structure ReminderResult where
  medication : List Char
  times : List (List Char)
  message : List Char
deriving DecidableEq

/-- Display time of one reminder: datetime.now().replace(hour=hour,
minute=minute) keeps the second-plus-microsecond nowMicro of the clock; the
offset offMicro microseconds is added and the result shown as %H:%M,
wrapping on the 24-hour clock. -/
def reminderDisplayTime (hour minute nowMicro offMicro : ℕ) : List Char :=
  let totalSec := ((hour * 3600 + minute * 60) * 1000000 + nowMicro + offMicro) / 1000000
  fmtHHMM ((totalSec / 3600) % 24) ((totalSec / 60) % 60)

/-- Embedding of set_medication_reminder (src/advanced_health_agent.py,
lines 60-76).  start_time is taken pre-parsed as hour and minute;
times_per_day = 0 raises ZeroDivisionError at 24 / times_per_day, and an
out-of-range hour or minute raises ValueError inside datetime.replace. -/
def set_medication_reminder (medication_name : List Char) (times_per_day : ℕ)
    (hour minute : ℕ) (nowMicro : ℕ) : Except String ReminderResult :=
  if times_per_day = 0 then .error "division by zero"
  else if 24 ≤ hour then .error "hour must be in 0..23"
  else if 60 ≤ minute then .error "minute must be in 0..59"
  else
    let reminders := (List.range times_per_day).map (fun i =>
      reminderDisplayTime hour minute nowMicro
        (roundHalfEvenDiv (i * 86400000000) times_per_day))
    .ok { medication := medication_name
        , times := reminders
        , message := pstr "Reminders set for " ++ medication_name ++
            pstr " at: " ++ List.intercalate (pstr ", ") reminders }

lemma roundHalfEvenDiv_eq_div (num den : ℕ) (h : den ∣ num) (h0 : den ≠ 0) :
    roundHalfEvenDiv num den = num / den := by
  obtain ⟨c, rfl⟩ := h
  have hr : den * c % den = 0 := Nat.mul_mod_right den c
  unfold roundHalfEvenDiv
  rw [hr, if_neg (by omega), if_pos (by omega)]

lemma reminder_time_eq (hour minute nowMicro P : ℕ) (h24 : hour < 24)
    (h60 : minute < 60) (hnow : nowMicro < 60000000) :
    reminderDisplayTime hour minute nowMicro (P * 60000000) =
      fmtHHMM (((hour * 60 + minute + P) % 1440) / 60)
              ((hour * 60 + minute + P) % 60) := by
  simp only [reminderDisplayTime]
  have h1 : ((hour * 3600 + minute * 60) * 1000000 + nowMicro + P * 60000000)
      / 1000000 / 3600 % 24 = ((hour * 60 + minute + P) % 1440) / 60 := by omega
  have h2 : ((hour * 3600 + minute * 60) * 1000000 + nowMicro + P * 60000000)
      / 1000000 / 60 % 60 = (hour * 60 + minute + P) % 60 := by omega
  rw [h1, h2]

/-- When times_per_day divides 1440 the reminder list is the evenly spaced
schedule in whole minutes, independent of the clock reading. -/
lemma set_medication_reminder_formula (name : List Char)
    (t hour minute nowMicro : ℕ) (ht : t ∣ 1440) (h24 : hour < 24)
    (h60 : minute < 60) (hnow : nowMicro < 60000000) :
    set_medication_reminder name t hour minute nowMicro = .ok
      { medication := name
      , times := (List.range t).map (fun i =>
          fmtHHMM (((hour * 60 + minute + i * (1440 / t)) % 1440) / 60)
                  ((hour * 60 + minute + i * (1440 / t)) % 60))
      , message := pstr "Reminders set for " ++ name ++ pstr " at: " ++
          List.intercalate (pstr ", ") ((List.range t).map (fun i =>
            fmtHHMM (((hour * 60 + minute + i * (1440 / t)) % 1440) / 60)
                    ((hour * 60 + minute + i * (1440 / t)) % 60))) } := by
  have ht0 : t ≠ 0 := by
    rintro rfl
    exact absurd (Nat.eq_zero_of_zero_dvd ht) (by norm_num)
  have hdvd : t ∣ 86400000000 := dvd_trans ht (by norm_num)
  have hmap : (List.range t).map (fun i => reminderDisplayTime hour minute nowMicro
      (roundHalfEvenDiv (i * 86400000000) t)) = (List.range t).map (fun i =>
      fmtHHMM (((hour * 60 + minute + i * (1440 / t)) % 1440) / 60)
              ((hour * 60 + minute + i * (1440 / t)) % 60)) := by
    refine List.map_congr_left (fun i _ => ?_)
    have hd : t ∣ i * 86400000000 := Dvd.dvd.mul_left hdvd i
    have hoff : roundHalfEvenDiv (i * 86400000000) t = i * (1440 / t) * 60000000 := by
      rw [roundHalfEvenDiv_eq_div _ _ hd ht0]
      have he : i * 86400000000 = i * 60000000 * 1440 := by ring
      rw [he, Nat.mul_div_assoc _ ht]
      ring
    rw [hoff]
    exact reminder_time_eq hour minute nowMicro _ h24 h60 hnow
  simp only [set_medication_reminder, if_neg ht0, if_neg (not_le.mpr h24),
    if_neg (not_le.mpr h60)]
  rw [hmap]

/-- C4 (amended): when times_per_day divides 1440 (the interval is a whole
number of minutes), set_medication_reminder returns exactly times_per_day
clock times starting at start_time and spaced 1440/times_per_day minutes
apart, wrapping on the 24-hour clock, independently of the wall-clock
reading; the Aspirin example of the claim is the witness below.  For other
values of times_per_day the displayed times depend on the current clock
second (see the counterexample), so the claim as stated fails. -/
theorem set_medication_reminder_schedule (name : List Char)
    (t hour minute nowMicro : ℕ) (ht : t ∣ 1440) (h24 : hour < 24)
    (h60 : minute < 60) (hnow : nowMicro < 60000000) :
    ∃ r, set_medication_reminder name t hour minute nowMicro = .ok r ∧
      r.times.length = t ∧
      ∀ i, i < t → r.times[i]? = some (fmtHHMM
        (((hour * 60 + minute + i * (1440 / t)) % 1440) / 60)
        ((hour * 60 + minute + i * (1440 / t)) % 60)) := by
  refine ⟨_, set_medication_reminder_formula name t hour minute nowMicro ht h24 h60 hnow,
    by simp, ?_⟩
  intro i hi
  simp [List.getElem?_range, hi]

/-- Witness for C4: Aspirin three times a day from 09:00 gives 09:00, 17:00
and 01:00, wrapping past midnight, at an arbitrary clock reading. -/
theorem set_medication_reminder_schedule_witness :
    (3 : ℕ) ∣ 1440 ∧ (9 : ℕ) < 24 ∧ (0 : ℕ) < 60 ∧ (123456 : ℕ) < 60000000 ∧
      ∃ r, set_medication_reminder (pstr "Aspirin") 3 9 0 123456 = .ok r ∧
        r.times.length = 3 ∧ r.times[0]? = some (pstr "09:00") ∧
        r.times[1]? = some (pstr "17:00") ∧ r.times[2]? = some (pstr "01:00") := by
  obtain ⟨r, h1, h2, h3⟩ := set_medication_reminder_schedule (pstr "Aspirin")
    3 9 0 123456 (by decide) (by decide) (by decide) (by decide)
  refine ⟨by decide, by decide, by decide, by decide, r, h1, h2, ?_, ?_, ?_⟩
  · rw [h3 0 (by decide)]; decide
  · rw [h3 1 (by decide)]; decide
  · rw [h3 2 (by decide)]; decide

/-- Counterexample for C4: with seven doses a day the interval 24/7 hours is
not a whole number of minutes, and the returned clock times depend on the
second of the wall clock at invocation, so there is no fixed schedule
determined by the arguments as the claim states. -/
theorem set_medication_reminder_schedule_cx :
    set_medication_reminder (pstr "Aspirin") 7 9 0 0 ≠
      set_medication_reminder (pstr "Aspirin") 7 9 0 59000000 := by decide

/-- C9 (amended): calculate_bmi, calculate_daily_water and search_symptoms
are deterministic functions of their arguments (their embeddings take no
clock or randomness input), but set_medication_reminder also depends on the
wall clock at invocation: two calls with equal arguments agree whenever
times_per_day divides 1440, and can disagree otherwise (see the
counterexample), so the claim as stated fails. -/
theorem set_medication_reminder_clock_independent (name : List Char)
    (t hour minute n1 n2 : ℕ) (ht : t ∣ 1440)
    (hn1 : n1 < 60000000) (hn2 : n2 < 60000000) :
    set_medication_reminder name t hour minute n1 =
      set_medication_reminder name t hour minute n2 := by
  have ht0 : t ≠ 0 := by
    rintro rfl
    exact absurd (Nat.eq_zero_of_zero_dvd ht) (by norm_num)
  rcases lt_or_le hour 24 with h24 | h24
  · rcases lt_or_le minute 60 with h60 | h60
    · rw [set_medication_reminder_formula name t hour minute n1 ht h24 h60 hn1,
          set_medication_reminder_formula name t hour minute n2 ht h24 h60 hn2]
    · simp only [set_medication_reminder, if_neg ht0, if_neg (not_le.mpr h24),
        if_pos h60]
  · simp only [set_medication_reminder, if_neg ht0, if_pos h24]

/-- Witness for C9: a thrice-daily schedule is identical at two extreme
clock readings. -/
theorem set_medication_reminder_clock_independent_witness :
    (3 : ℕ) ∣ 1440 ∧ (0 : ℕ) < 60000000 ∧ (59999999 : ℕ) < 60000000 ∧
      set_medication_reminder (pstr "Aspirin") 3 9 0 0 =
        set_medication_reminder (pstr "Aspirin") 3 9 0 59999999 :=
  ⟨by decide, by decide, by decide,
    set_medication_reminder_clock_independent (pstr "Aspirin") 3 9 0 0 59999999
      (by decide) (by decide) (by decide)⟩

/-- Counterexample for C9: set_medication_reminder with equal arguments
returns different schedules at two different clock readings, so the four
tool functions are not all deterministic as the claim states. -/
theorem set_medication_reminder_clock_independent_cx :
    set_medication_reminder (pstr "Ibuprofen") 7 10 0 0 ≠
      set_medication_reminder (pstr "Ibuprofen") 7 10 0 59000000 := by decide

-- ============= SYMPTOM SEARCH =============

/-- Lexicographic comparison of char lists by code point, the order Python
sorted() uses on strings. -/
def strLeB : List Char → List Char → Bool
  | [], _ => true
  | _ :: _, [] => false
  | a :: as, b :: bs => if a < b then true else if b < a then false else strLeB as bs

/-- Insertion step of the embedding of sorted(). -/
def insertSorted (a : List Char) : List (List Char) → List (List Char)
  | [] => [a]
  | b :: bs => if strLeB a b then a :: b :: bs else b :: insertSorted a bs

/-- Embedding of sorted() on a list of strings.  CPython uses a different
sorting algorithm, but the comparison is total, so the sorted result only
differs in the relative order of equal strings, which no downstream use
observes. -/
def pySorted : List (List Char) → List (List Char)
  | [] => []
  | a :: as => insertSorted a (pySorted as)

/-- Embedding of str.strip(): drop whitespace from both ends (Python strips
a slightly larger Unicode whitespace set; no claim distinguishes them). -/
def pyStrip (l : List Char) : List Char :=
  ((l.dropWhile Char.isWhitespace).reverse.dropWhile Char.isWhitespace).reverse

/-- Embedding of s.lower().strip() applied to each symptom. -/
def normalizeSymptom (s : List Char) : List Char := pyStrip (s.map Char.toLower)

/-- Embedding of startswith, the auxiliary of the substring test. -/
def leadsWith : List Char → List Char → Bool
  | [], _ => true
  | _ :: _, [] => false
  | a :: as, b :: bs => a = b && leadsWith as bs

/-- Embedding of the Python substring test s in key. -/
def isSubstr (s : List Char) : List Char → Bool
  | [] => leadsWith s []
  | b :: bs => leadsWith s (b :: bs) || isSubstr s bs

/-- The fixed symptom table of search_symptoms
(src/advanced_health_agent.py, lines 82-87), in insertion order. -/
def symptom_db : List (List Char × List (List Char)) :=
  [ (pstr "fever,headache,fatigue",
      [pstr "Common Cold", pstr "Flu", pstr "COVID-19"])
  , (pstr "cough,fever",
      [pstr "Respiratory Infection", pstr "Bronchitis"])
  , (pstr "headache,nausea",
      [pstr "Migraine", pstr "Tension Headache"])
  , (pstr "fever,body ache",
      [pstr "Flu", pstr "Viral Infection"]) ]

/-- Result dict of search_symptoms. -/
structure SymptomResult where
  symptoms : List (List Char)
  possible_conditions : List (List Char)
  message : List Char
deriving DecidableEq

/-- Embedding of search_symptoms (src/advanced_health_agent.py, lines
79-104).  The normalized symptoms are joined with commas after sorting and
the joined key is split at commas again, so the fragments tested for
substring membership are the comma-free pieces of the normalized symptoms;
list(set(...)) is embedded as List.dedup. -/
def search_symptoms (symptoms_list : List (List Char)) : SymptomResult :=
  let symptoms_key :=
    List.intercalate [','] (pySorted (symptoms_list.map normalizeSymptom))
  let frags := List.splitOn ',' symptoms_key
  let possible_conditions := (symptom_db.filter
    (fun kc => frags.any (fun s => isSubstr s kc.1))).flatMap (fun kc => kc.2)
  let possible_conditions2 :=
    if possible_conditions = []
    then [pstr "Unable to determine - Please consult a doctor"]
    else possible_conditions
  { symptoms := symptoms_list
  , possible_conditions := possible_conditions2.dedup
  , message := pstr "⚠️ These are possible conditions. Please consult a healthcare provider for proper diagnosis." }

lemma insertSorted_perm (a : List Char) (l : List (List Char)) :
    List.Perm (insertSorted a l) (a :: l) := by
  induction l with
  | nil => exact List.Perm.refl _
  | cons b bs ih =>
    by_cases hb : strLeB a b
    · simp [insertSorted, hb]
    · simp only [insertSorted, if_neg hb]
      exact (ih.cons b).trans (List.Perm.swap a b bs)

lemma pySorted_perm (l : List (List Char)) : List.Perm (pySorted l) l := by
  induction l with
  | nil => exact List.Perm.refl _
  | cons a as ih => exact (insertSorted_perm a (pySorted as)).trans (ih.cons a)

lemma perm_any_eq {α : Type} {l₁ l₂ : List α} (h : List.Perm l₁ l₂)
    (p : α → Bool) : l₁.any p = l₂.any p := by
  by_cases h1 : l₁.any p = true
  · obtain ⟨x, hx, hpx⟩ := List.any_eq_true.mp h1
    rw [h1, List.any_eq_true.mpr ⟨x, h.subset hx, hpx⟩]
  · by_cases h2 : l₂.any p = true
    · obtain ⟨x, hx, hpx⟩ := List.any_eq_true.mp h2
      exact absurd (List.any_eq_true.mpr ⟨x, h.symm.subset hx, hpx⟩) h1
    · rw [Bool.not_eq_true] at h1 h2
      rw [h1, h2]

/-- C5 (amended): for every nonempty list of symptoms whose normalized
forms contain no comma, possible_conditions is the deduplicated union of
the condition lists of every table entry whose key contains at least one
normalized input symptom as a substring, with the single fallback entry
when no entry matches.  (For the empty list, or for symptoms containing
commas or normalizing to the empty string, the code instead matches on the
comma-split fragments of the joined key, so the claim as stated fails; see
the counterexample.) -/
theorem search_symptoms_matching (xs : List (List Char)) (hxs : xs ≠ [])
    (hcf : ∀ s ∈ List.map normalizeSymptom xs, ',' ∉ s) :
    (∀ c, c ∈ (search_symptoms xs).possible_conditions ↔
      ((∃ p ∈ symptom_db, (∃ s ∈ List.map normalizeSymptom xs,
          isSubstr s p.1 = true) ∧ c ∈ p.2) ∨
       ((∀ p ∈ symptom_db, ¬ ∃ s ∈ List.map normalizeSymptom xs,
          isSubstr s p.1 = true) ∧
         c = pstr "Unable to determine - Please consult a doctor"))) ∧
    (search_symptoms xs).possible_conditions.Nodup := by
  have hperm : List.Perm (pySorted (List.map normalizeSymptom xs))
      (List.map normalizeSymptom xs) := pySorted_perm _
  have hnil : pySorted (List.map normalizeSymptom xs) ≠ [] := by
    intro h0
    have h0p := hperm
    rw [h0] at h0p
    exact hxs (List.map_eq_nil_iff.mp (List.Perm.eq_nil h0p.symm))
  have hsplit : List.splitOn ','
      (List.intercalate [','] (pySorted (List.map normalizeSymptom xs)))
      = pySorted (List.map normalizeSymptom xs) :=
    List.splitOn_intercalate _ ',' (fun l hl => hcf l (hperm.subset hl)) hnil
  have hfilter : List.filter (fun kc => (List.splitOn ','
        (List.intercalate [','] (pySorted (List.map normalizeSymptom xs)))).any
        (fun s => isSubstr s kc.1)) symptom_db
      = List.filter (fun kc => (List.map normalizeSymptom xs).any
        (fun s => isSubstr s kc.1)) symptom_db := by
    refine List.filter_congr (fun kc _ => ?_)
    rw [hsplit]
    exact perm_any_eq hperm _
  have hdedup1 : ([pstr "Unable to determine - Please consult a doctor"]
      : List (List Char)).dedup
      = [pstr "Unable to determine - Please consult a doctor"] := by decide
  simp only [search_symptoms]
  rw [hfilter]
  by_cases hmatch : List.filter (fun kc => (List.map normalizeSymptom xs).any
      (fun s => isSubstr s kc.1)) symptom_db = []
  · have hforall := List.filter_eq_nil_iff.mp hmatch
    rw [hmatch]
    rw [List.flatMap_nil, if_pos rfl, hdedup1]
    constructor
    · intro c
      rw [List.mem_singleton]
      constructor
      · intro hc
        exact Or.inr ⟨fun p hp hex =>
          hforall p hp (List.any_eq_true.mpr hex), hc⟩
      · rintro (⟨p, hp, hex, _⟩ | ⟨_, hc⟩)
        · exact absurd (List.any_eq_true.mpr hex) (hforall p hp)
        · exact hc
    · exact List.nodup_singleton _
  · have hne2 : (List.filter (fun kc => (List.map normalizeSymptom xs).any
        (fun s => isSubstr s kc.1)) symptom_db).flatMap (fun kc => kc.2) ≠ [] := by
      obtain ⟨q, hq⟩ := List.exists_mem_of_ne_nil _ hmatch
      have hmemdb : q ∈ symptom_db := (List.mem_filter.mp hq).1
      have hq2 : q.2 ≠ [] :=
        (by decide : ∀ p ∈ symptom_db, p.2 ≠ []) q hmemdb
      obtain ⟨c0, hc0⟩ := List.exists_mem_of_ne_nil _ hq2
      exact List.ne_nil_of_mem (List.mem_flatMap.mpr ⟨q, hq, hc0⟩)
    rw [if_neg hne2]
    constructor
    · intro c
      rw [List.mem_dedup, List.mem_flatMap]
      constructor
      · rintro ⟨p, hp, hc⟩
        have hp2 := List.mem_filter.mp hp
        exact Or.inl ⟨p, hp2.1, List.any_eq_true.mp hp2.2, hc⟩
      · rintro (⟨p, hp, hex, hc⟩ | ⟨hall, _⟩)
        · exact ⟨p, List.mem_filter.mpr ⟨hp, List.any_eq_true.mpr hex⟩, hc⟩
        · exact absurd (List.filter_eq_nil_iff.mpr (fun p hp hpt =>
            hall p hp (List.any_eq_true.mp hpt))) hmatch
    · exact List.nodup_dedup _

/-- Witness for C5 on the symptoms fever and headache: both the entry with
key fever,body ache and the entry with key headache,nausea contribute their
conditions through substring matching, and the result list has no
duplicates. -/
theorem search_symptoms_matching_witness :
    ([pstr "fever", pstr "headache"] : List (List Char)) ≠ [] ∧
    (∀ s ∈ List.map normalizeSymptom [pstr "fever", pstr "headache"], ',' ∉ s) ∧
    pstr "Viral Infection" ∈
      (search_symptoms [pstr "fever", pstr "headache"]).possible_conditions ∧
    pstr "Migraine" ∈
      (search_symptoms [pstr "fever", pstr "headache"]).possible_conditions ∧
    (search_symptoms [pstr "fever", pstr "headache"]).possible_conditions.Nodup := by
  have h1 : ([pstr "fever", pstr "headache"] : List (List Char)) ≠ [] := by decide
  have h2 : ∀ s ∈ List.map normalizeSymptom [pstr "fever", pstr "headache"],
      ',' ∉ s := by decide
  obtain ⟨hmem, hnd⟩ := search_symptoms_matching [pstr "fever", pstr "headache"] h1 h2
  refine ⟨h1, h2, ?_, ?_, hnd⟩
  · exact (hmem _).mpr (Or.inl ⟨(pstr "fever,body ache",
      [pstr "Flu", pstr "Viral Infection"]), by decide,
      ⟨pstr "fever", by decide, by decide⟩, by decide⟩)
  · exact (hmem _).mpr (Or.inl ⟨(pstr "headache,nausea",
      [pstr "Migraine", pstr "Tension Headache"]), by decide,
      ⟨pstr "headache", by decide, by decide⟩, by decide⟩)

/-- Counterexample for C5: on the empty symptom list no table key contains
any input symptom, so the claim as stated demands the single fallback
entry; the code instead splits the empty joined key into one empty
fragment, which is a substring of every key, and returns the union of all
condition lists. -/
theorem search_symptoms_matching_cx :
    (search_symptoms []).possible_conditions ≠
      [pstr "Unable to determine - Please consult a doctor"] := by decide

-- ============= TOOL DISPATCH AND THE CHAT TURN =============

/-- Arguments of a tool call, as parsed from the JSON payload the upstream
service supplies.  Optional parameters model absent keys; the Python
defaults (activity_level moderate, start_time 09:00) are applied at the
call site exactly as keyword defaults are. -/
inductive ToolArgs where
  | bmiArgs (weight_kg height_cm : ℚ)
  | waterArgs (weight_kg : ℚ) (activity_level : Option (List Char))
  | reminderArgs (medication_name : List Char) (times_per_day : ℕ)
      (start_time : Option (ℕ × ℕ))
  | symptomArgs (symptoms_list : List (List Char))
deriving DecidableEq

/-- Result of one execute_function call: one of the four tool result dicts,
or the error dict returned for an unknown tool name. -/
inductive FnResult where
  | bmiR (r : BmiResult)
  | waterR (r : WaterResult)
  | remR (r : ReminderResult)
  | symR (r : SymptomResult)
  | errR (error : String)
deriving DecidableEq

/-- The names present in functions_map
(src/advanced_health_agent.py, lines 228-233). -/
def functions_map_names : List String :=
  ["calculate_bmi", "calculate_daily_water", "set_medication_reminder",
   "search_symptoms"]

/-- Embedding of AdvancedHealthAgent.execute_function
(src/advanced_health_agent.py, lines 226-238).  A known name dispatches to
the tool, whose exception (if any) propagates; a keyword mismatch raises
TypeError; an unknown name returns the error dict without raising.
nowMicro is the wall-clock second-plus-microsecond datetime.now() reads. -/
def execute_function (nowMicro : ℕ) (function_name : String)
    (arguments : ToolArgs) : Except String FnResult :=
  if function_name = "calculate_bmi" then
    match arguments with
    | .bmiArgs w h =>
      match calculate_bmi w h with
      | .ok r => .ok (.bmiR r)
      | .error e => .error e
    | _ => .error "calculate_bmi() got an unexpected keyword argument"
  else if function_name = "calculate_daily_water" then
    match arguments with
    | .waterArgs w lvl =>
      .ok (.waterR (calculate_daily_water w (lvl.getD (pstr "moderate"))))
    | _ => .error "calculate_daily_water() got an unexpected keyword argument"
  else if function_name = "set_medication_reminder" then
    match arguments with
    | .reminderArgs nm t st =>
      match set_medication_reminder nm t (st.getD (9, 0)).1 (st.getD (9, 0)).2
          nowMicro with
      | .ok r => .ok (.remR r)
      | .error e => .error e
    | _ => .error "set_medication_reminder() got an unexpected keyword argument"
  else if function_name = "search_symptoms" then
    match arguments with
    | .symptomArgs sl => .ok (.symR (search_symptoms sl))
    | _ => .error "search_symptoms() got an unexpected keyword argument"
  else .ok (.errR ("Function " ++ function_name ++ " not found"))

/-- One tool-call request from the upstream response: tool_call.id,
tool_call.function.name and the parsed tool_call.function.arguments. -/
structure ToolCall where
  id : String
  name : String
  arguments : ToolArgs
deriving DecidableEq

/-- The message object of an upstream response: its content and its
(possibly empty) list of tool-call requests. -/
structure RespMessage where
  content : Option String
  tool_calls : List ToolCall
deriving DecidableEq

/-- Outcome of one upstream completion request: the response message, or a
raised exception with its text. -/
inductive UpstreamResult where
  | success (message : RespMessage)
  | failure (err : String)
deriving DecidableEq

/-- One entry of conversation_history.  The assistant tool-call message is
the upstream response message appended verbatim; a tool message carries the
tool_call_id it answers and the result whose json.dumps is its content. -/
inductive Message where
  | system (content : String)
  | user (content : String)
  | assistant (content : Option String)
  | assistantToolCalls (message : RespMessage)
  | tool (tool_call_id : String) (content : FnResult)
deriving DecidableEq

/-- Value returned by chat: the answer string (Python may return None when
the response content is null), or the formatted error string of the except
handler. -/
inductive ChatRet where
  | answer (content : Option String)
  | error (text : String)
deriving DecidableEq

/-- Observable trace of one chat turn: the returned value, the final
conversation history, the message lists sent upstream (one per request
made), and the execute_function invocations in order. -/
structure TurnTrace where
  ret : ChatRet
  history : List Message
  requests : List (List Message)
  invocations : List (String × ToolArgs)
deriving DecidableEq

/-- The tool-execution loop of chat (src/advanced_health_agent.py, lines
266-281): for each request in order, execute the function and append a tool
message; an exception aborts the loop, keeping the messages already
appended.  Returns the appended messages, the invocations made, and the
exception text if one was raised. -/
def runTools (nowMicro : ℕ) :
    List ToolCall → List Message × List (String × ToolArgs) × Option String
  | [] => ([], [], none)
  | tc :: rest =>
    match execute_function nowMicro tc.name tc.arguments with
    | .error e => ([], [(tc.name, tc.arguments)], some e)
    | .ok r =>
      let res := runTools nowMicro rest
      (Message.tool tc.id r :: res.1, (tc.name, tc.arguments) :: res.2.1, res.2.2)

/-- Embedding of AdvancedHealthAgent.chat (src/advanced_health_agent.py,
lines 240-310).  resp1 and resp2 are the outcomes the upstream service
would give to the first and second completion request of the turn; the
whole body runs inside one try block whose except handler returns the
formatted error string. -/
def chat (nowMicro : ℕ) (hist : List Message) (user_message : String)
    (resp1 resp2 : UpstreamResult) : TurnTrace :=
  let h1 := hist ++ [Message.user user_message]
  match resp1 with
  | .failure e =>
    { ret := .error ("❌ Error: " ++ e), history := h1
    , requests := [h1], invocations := [] }
  | .success response_message =>
    if response_message.tool_calls = [] then
      { ret := .answer response_message.content
      , history := h1 ++ [Message.assistant response_message.content]
      , requests := [h1], invocations := [] }
    else
      let h2 := h1 ++ [Message.assistantToolCalls response_message]
      let res := runTools nowMicro response_message.tool_calls
      let h3 := h2 ++ res.1
      match res.2.2 with
      | some e =>
        { ret := .error ("❌ Error: " ++ e), history := h3
        , requests := [h1], invocations := res.2.1 }
      | none =>
        match resp2 with
        | .failure e =>
          { ret := .error ("❌ Error: " ++ e), history := h3
          , requests := [h1, h3], invocations := res.2.1 }
        | .success second_message =>
          { ret := .answer second_message.content
          , history := h3 ++ [Message.assistant second_message.content]
          , requests := [h1, h3], invocations := res.2.1 }

/-- The result a successful execute_function call returns, with a junk
default for the impossible error case. -/
def okResult (nowMicro : ℕ) (tc : ToolCall) : FnResult :=
  ((execute_function nowMicro tc.name tc.arguments).toOption).getD (.errR "")

lemma runTools_ok (nowMicro : ℕ) (calls : List ToolCall)
    (h : ∀ tc ∈ calls, ∃ r, execute_function nowMicro tc.name tc.arguments = .ok r) :
    runTools nowMicro calls =
      (calls.map (fun tc => Message.tool tc.id (okResult nowMicro tc)),
       calls.map (fun tc => (tc.name, tc.arguments)), none) := by
  induction calls with
  | nil => rfl
  | cons tc rest ih =>
    obtain ⟨r, hr⟩ := h tc (List.mem_cons_self tc rest)
    have hok : okResult nowMicro tc = r := by
      simp [okResult, hr, Except.toOption]
    simp only [runTools, hr]
    rw [ih (fun x hx => h x (List.mem_cons_of_mem _ hx))]
    simp [hok]

/-- C1 (amended): a turn whose first upstream response succeeds with zero
tool calls makes exactly one upstream request and appends exactly one new
assistant message after the user message; a turn whose first response
succeeds with n tool-call requests, provided every requested invocation
returns normally (unknown names return error results and count as normal)
and the second round-trip succeeds, makes exactly two upstream requests,
invokes each requested tool once in arrival order, and appends, after the
user message, the assistant tool-call message, one tool message per request
carrying the originating request id, and the final assistant message, in
that order.  Without those provisos the claim fails: a raising tool aborts
the turn after the tool-call message (see the counterexample). -/
theorem chat_turn_shape (now : ℕ) (hist : List Message) (u : String)
    (rm : RespMessage) (r2 : UpstreamResult) :
    (rm.tool_calls = [] →
      chat now hist u (.success rm) r2 =
        { ret := .answer rm.content
        , history := hist ++ [Message.user u, Message.assistant rm.content]
        , requests := [hist ++ [Message.user u]]
        , invocations := [] }) ∧
    (∀ rm2 : RespMessage, rm.tool_calls ≠ [] →
      (∀ tc ∈ rm.tool_calls, ∃ r,
        execute_function now tc.name tc.arguments = .ok r) →
      chat now hist u (.success rm) (.success rm2) =
        { ret := .answer rm2.content
        , history := hist ++ [Message.user u, Message.assistantToolCalls rm] ++
            rm.tool_calls.map (fun tc => Message.tool tc.id (okResult now tc)) ++
            [Message.assistant rm2.content]
        , requests := [hist ++ [Message.user u],
            hist ++ [Message.user u, Message.assistantToolCalls rm] ++
              rm.tool_calls.map (fun tc => Message.tool tc.id (okResult now tc))]
        , invocations := rm.tool_calls.map (fun tc => (tc.name, tc.arguments)) }) := by
  constructor
  · intro h0
    simp only [chat, if_pos h0]
    simp [List.append_assoc]
  · intro rm2 hne hall
    simp only [chat, if_neg hne, runTools_ok now rm.tool_calls hall]
    simp [List.append_assoc]

/-- Witness for C1: a turn with two tool calls (a symptom search and an
unknown tool) makes two requests, invokes both in order, and appends the
four messages in order. -/
theorem chat_turn_shape_witness :
    (([⟨"call_1", "search_symptoms", .symptomArgs [pstr "fever"]⟩,
       ⟨"call_2", "get_weather", .symptomArgs []⟩] : List ToolCall) ≠ []) ∧
    (∀ tc ∈ ([⟨"call_1", "search_symptoms", .symptomArgs [pstr "fever"]⟩,
       ⟨"call_2", "get_weather", .symptomArgs []⟩] : List ToolCall),
      ∃ r, execute_function 0 tc.name tc.arguments = .ok r) ∧
    chat 0 [] "hi"
        (.success ⟨none, [⟨"call_1", "search_symptoms", .symptomArgs [pstr "fever"]⟩,
          ⟨"call_2", "get_weather", .symptomArgs []⟩]⟩)
        (.success ⟨some "All done", []⟩) =
      { ret := .answer (some "All done")
      , history := [] ++ [Message.user "hi", Message.assistantToolCalls
            ⟨none, [⟨"call_1", "search_symptoms", .symptomArgs [pstr "fever"]⟩,
              ⟨"call_2", "get_weather", .symptomArgs []⟩]⟩] ++
          ([⟨"call_1", "search_symptoms", .symptomArgs [pstr "fever"]⟩,
            ⟨"call_2", "get_weather", .symptomArgs []⟩] : List ToolCall).map
            (fun tc => Message.tool tc.id (okResult 0 tc)) ++
          [Message.assistant (some "All done")]
      , requests := [[] ++ [Message.user "hi"],
          [] ++ [Message.user "hi", Message.assistantToolCalls
              ⟨none, [⟨"call_1", "search_symptoms", .symptomArgs [pstr "fever"]⟩,
                ⟨"call_2", "get_weather", .symptomArgs []⟩]⟩] ++
            ([⟨"call_1", "search_symptoms", .symptomArgs [pstr "fever"]⟩,
              ⟨"call_2", "get_weather", .symptomArgs []⟩] : List ToolCall).map
              (fun tc => Message.tool tc.id (okResult 0 tc))]
      , invocations := ([⟨"call_1", "search_symptoms", .symptomArgs [pstr "fever"]⟩,
          ⟨"call_2", "get_weather", .symptomArgs []⟩] : List ToolCall).map
          (fun tc => (tc.name, tc.arguments)) } := by
  have hall : ∀ tc ∈ ([⟨"call_1", "search_symptoms", .symptomArgs [pstr "fever"]⟩,
      ⟨"call_2", "get_weather", .symptomArgs []⟩] : List ToolCall),
      ∃ r, execute_function 0 tc.name tc.arguments = .ok r := by
    intro tc htc
    fin_cases htc
    · exact ⟨_, rfl⟩
    · exact ⟨_, rfl⟩
  exact ⟨by decide, hall,
    (chat_turn_shape 0 [] "hi"
      ⟨none, [⟨"call_1", "search_symptoms", .symptomArgs [pstr "fever"]⟩,
        ⟨"call_2", "get_weather", .symptomArgs []⟩]⟩
      (.success ⟨some "All done", []⟩)).2
      ⟨some "All done", []⟩ (by decide) hall⟩

/-- Counterexample for C1: a turn whose single tool call raises (a
set_medication_reminder request with times_per_day 0 divides by zero) makes
only one upstream request, appends only the user and assistant tool-call
messages, and returns the formatted error, not the 2-request 3-append shape
the claim states for every turn with tool calls. -/
theorem chat_turn_shape_cx :
    (chat 0 [] "remind me zero times a day"
        (.success ⟨some "", [⟨"call_1", "set_medication_reminder",
          .reminderArgs (pstr "Aspirin") 0 none⟩]⟩)
        (.success ⟨some "done", []⟩)).requests.length = 1 ∧
    (chat 0 [] "remind me zero times a day"
        (.success ⟨some "", [⟨"call_1", "set_medication_reminder",
          .reminderArgs (pstr "Aspirin") 0 none⟩]⟩)
        (.success ⟨some "done", []⟩)).history.length = 2 ∧
    (chat 0 [] "remind me zero times a day"
        (.success ⟨some "", [⟨"call_1", "set_medication_reminder",
          .reminderArgs (pstr "Aspirin") 0 none⟩]⟩)
        (.success ⟨some "done", []⟩)).ret =
      .error ("❌ Error: " ++ "division by zero") := by decide

/-- C2: a turn aborted by an upstream failure returns the formatted error
string and leaves the history exactly as already appended: on a
first-request failure only the user message was appended; on a
second-request failure (which presupposes every tool invocation returned)
the user message, the assistant tool-call message and the tool result
messages remain, and nothing further is appended. -/
theorem chat_upstream_failure (now : ℕ) (hist : List Message) (u : String)
    (e : String) (r2 : UpstreamResult) (rm : RespMessage) :
    (chat now hist u (.failure e) r2 =
      { ret := .error ("❌ Error: " ++ e)
      , history := hist ++ [Message.user u]
      , requests := [hist ++ [Message.user u]]
      , invocations := [] }) ∧
    (rm.tool_calls ≠ [] →
      (∀ tc ∈ rm.tool_calls, ∃ r,
        execute_function now tc.name tc.arguments = .ok r) →
      chat now hist u (.success rm) (.failure e) =
        { ret := .error ("❌ Error: " ++ e)
        , history := hist ++ [Message.user u, Message.assistantToolCalls rm] ++
            rm.tool_calls.map (fun tc => Message.tool tc.id (okResult now tc))
        , requests := [hist ++ [Message.user u],
            hist ++ [Message.user u, Message.assistantToolCalls rm] ++
              rm.tool_calls.map (fun tc => Message.tool tc.id (okResult now tc))]
        , invocations := rm.tool_calls.map (fun tc => (tc.name, tc.arguments)) }) := by
  constructor
  · rfl
  · intro hne hall
    simp only [chat, if_neg hne, runTools_ok now rm.tool_calls hall]
    simp [List.append_assoc]

/-- Witness for C2: a first-request failure leaves only the user message
appended; a second-request failure after one symptom-search tool call
leaves the user, tool-call and tool messages appended, and both return the
formatted error. -/
theorem chat_upstream_failure_witness :
    (chat 0 [] "hello" (.failure "timeout") (.success ⟨some "x", []⟩) =
      { ret := .error ("❌ Error: " ++ "timeout")
      , history := [] ++ [Message.user "hello"]
      , requests := [[] ++ [Message.user "hello"]]
      , invocations := [] }) ∧
    (([⟨"call_5", "search_symptoms", .symptomArgs [pstr "cough"]⟩] : List ToolCall) ≠ []) ∧
    (∀ tc ∈ ([⟨"call_5", "search_symptoms", .symptomArgs [pstr "cough"]⟩] : List ToolCall),
      ∃ r, execute_function 0 tc.name tc.arguments = .ok r) ∧
    chat 0 [] "I cough"
        (.success ⟨none, [⟨"call_5", "search_symptoms", .symptomArgs [pstr "cough"]⟩]⟩)
        (.failure "service unavailable") =
      { ret := .error ("❌ Error: " ++ "service unavailable")
      , history := [] ++ [Message.user "I cough", Message.assistantToolCalls
            ⟨none, [⟨"call_5", "search_symptoms", .symptomArgs [pstr "cough"]⟩]⟩] ++
          ([⟨"call_5", "search_symptoms", .symptomArgs [pstr "cough"]⟩] : List ToolCall).map
            (fun tc => Message.tool tc.id (okResult 0 tc))
      , requests := [[] ++ [Message.user "I cough"],
          [] ++ [Message.user "I cough", Message.assistantToolCalls
              ⟨none, [⟨"call_5", "search_symptoms", .symptomArgs [pstr "cough"]⟩]⟩] ++
            ([⟨"call_5", "search_symptoms", .symptomArgs [pstr "cough"]⟩] : List ToolCall).map
              (fun tc => Message.tool tc.id (okResult 0 tc))]
      , invocations := ([⟨"call_5", "search_symptoms",
          .symptomArgs [pstr "cough"]⟩] : List ToolCall).map
          (fun tc => (tc.name, tc.arguments)) } := by
  have hall : ∀ tc ∈ ([⟨"call_5", "search_symptoms",
      .symptomArgs [pstr "cough"]⟩] : List ToolCall),
      ∃ r, execute_function 0 tc.name tc.arguments = .ok r := by
    intro tc htc
    fin_cases htc
    exact ⟨_, rfl⟩
  exact ⟨(chat_upstream_failure 0 [] "hello" "timeout" (.success ⟨some "x", []⟩)
      ⟨none, []⟩).1,
    by decide, hall,
    (chat_upstream_failure 0 [] "I cough" "service unavailable"
      (.success ⟨some "x", []⟩)
      ⟨none, [⟨"call_5", "search_symptoms", .symptomArgs [pstr "cough"]⟩]⟩).2
      (by decide) hall⟩

/-- C3: a tool-call request whose name is not one of the four registered
names makes execute_function return the error result dict instead of
raising, and the dispatch loop appends that dict as the content of the
corresponding tool message and finishes the turn normally. -/
theorem execute_function_unknown_tool (now : ℕ) (name : String)
    (args : ToolArgs) (h : name ∉ functions_map_names) :
    execute_function now name args =
      .ok (.errR ("Function " ++ name ++ " not found")) ∧
    ∀ (hist : List Message) (u : String) (id : String) (c : Option String)
      (rm2 : RespMessage),
      chat now hist u (.success ⟨c, [⟨id, name, args⟩]⟩) (.success rm2) =
        { ret := .answer rm2.content
        , history := hist ++ [Message.user u,
            Message.assistantToolCalls ⟨c, [⟨id, name, args⟩]⟩,
            Message.tool id (.errR ("Function " ++ name ++ " not found")),
            Message.assistant rm2.content]
        , requests := [hist ++ [Message.user u],
            hist ++ [Message.user u,
              Message.assistantToolCalls ⟨c, [⟨id, name, args⟩]⟩,
              Message.tool id (.errR ("Function " ++ name ++ " not found"))]]
        , invocations := [(name, args)] } := by
  simp only [functions_map_names, List.mem_cons, List.not_mem_nil, or_false] at h
  push_neg at h
  obtain ⟨h1, h2, h3, h4⟩ := h
  have hex : execute_function now name args =
      .ok (.errR ("Function " ++ name ++ " not found")) := by
    simp only [execute_function, if_neg h1, if_neg h2, if_neg h3, if_neg h4]
  refine ⟨hex, ?_⟩
  intro hist u id c rm2
  simp only [chat, if_neg (List.cons_ne_nil _ _), runTools, hex]
  simp [List.append_assoc]

/-- Witness for C3: a request for the unregistered tool get_weather yields
the error dict, which is appended as the tool message content, and the turn
finishes with the final assistant answer. -/
theorem execute_function_unknown_tool_witness :
    ("get_weather" ∉ functions_map_names) ∧
    execute_function 0 "get_weather" (.symptomArgs []) =
      .ok (.errR ("Function " ++ "get_weather" ++ " not found")) ∧
    chat 0 [] "weather?"
        (.success ⟨none, [⟨"call_9", "get_weather", .symptomArgs []⟩]⟩)
        (.success ⟨some "I cannot check the weather", []⟩) =
      { ret := .answer (some "I cannot check the weather")
      , history := [] ++ [Message.user "weather?",
          Message.assistantToolCalls ⟨none, [⟨"call_9", "get_weather", .symptomArgs []⟩]⟩,
          Message.tool "call_9" (.errR ("Function " ++ "get_weather" ++ " not found")),
          Message.assistant (some "I cannot check the weather")]
      , requests := [[] ++ [Message.user "weather?"],
          [] ++ [Message.user "weather?",
            Message.assistantToolCalls ⟨none, [⟨"call_9", "get_weather", .symptomArgs []⟩]⟩,
            Message.tool "call_9" (.errR ("Function " ++ "get_weather" ++ " not found"))]]
        , invocations := [("get_weather", .symptomArgs [])] } := by
  have h : "get_weather" ∉ functions_map_names := by decide
  obtain ⟨hex, hchat⟩ := execute_function_unknown_tool 0 "get_weather" (.symptomArgs []) h
  exact ⟨h, hex, hchat [] "weather?" "call_9" none ⟨some "I cannot check the weather", []⟩⟩

-- ============= TOTALITY OF THE TOOLS ON VALID SHAPES =============

lemma append_ne_nil_left {α : Type} {l1 l2 : List α} (h : l1 ≠ []) :
    l1 ++ l2 ≠ [] := by
  intro he
  exact h (List.append_eq_nil.mp he).1

/-- C8 (amended): for every argument assignment matching the declared
parameter schemas with height_cm nonzero, times_per_day at least 1 and
start_time a valid clock time, each of the four tool functions returns
normally with a nonempty message string.  The claim as stated, over all
numbers and integers, fails: height_cm 0 and times_per_day 0 raise
ZeroDivisionError (see the counterexample). -/
theorem tools_return_message (w h w2 : ℚ) (lvl : List Char)
    (name : List Char) (t hour minute now : ℕ) (syms : List (List Char))
    (hh : h ≠ 0) (ht : 1 ≤ t) (hhr : hour < 24) (hmin : minute < 60) :
    (∃ r, calculate_bmi w h = .ok r ∧ r.message ≠ []) ∧
    (calculate_daily_water w2 lvl).message ≠ [] ∧
    (∃ r, set_medication_reminder name t hour minute now = .ok r ∧
      r.message ≠ []) ∧
    (search_symptoms syms).message ≠ [] := by
  refine ⟨?_, ?_, ?_, ?_⟩
  · have hne : ((h / 100 : ℚ)) ^ 2 ≠ 0 :=
      pow_ne_zero _ (div_ne_zero hh (by norm_num))
    simp only [calculate_bmi, if_neg hne]
    refine ⟨_, rfl, ?_⟩
    exact append_ne_nil_left (append_ne_nil_left (append_ne_nil_left
      (append_ne_nil_left (by decide))))
  · simp only [calculate_daily_water]
    exact append_ne_nil_left (append_ne_nil_left (append_ne_nil_left
      (append_ne_nil_left (by decide))))
  · have ht0 : t ≠ 0 := by omega
    simp only [set_medication_reminder, if_neg ht0, if_neg (not_le.mpr hhr),
      if_neg (not_le.mpr hmin)]
    refine ⟨_, rfl, ?_⟩
    exact append_ne_nil_left (append_ne_nil_left (append_ne_nil_left
      (by decide)))
  · simp only [search_symptoms]
    decide

/-- Witness for C8 at weight 70, height 175, weight 65 with moderate
activity, Aspirin three times from 09:00, and one symptom. -/
theorem tools_return_message_witness :
    (175 : ℚ) ≠ 0 ∧ (1 : ℕ) ≤ 3 ∧ (9 : ℕ) < 24 ∧ (0 : ℕ) < 60 ∧
    ((∃ r, calculate_bmi 70 175 = .ok r ∧ r.message ≠ []) ∧
     (calculate_daily_water 65 (pstr "moderate")).message ≠ [] ∧
     (∃ r, set_medication_reminder (pstr "Aspirin") 3 9 0 0 = .ok r ∧
       r.message ≠ []) ∧
     (search_symptoms [pstr "fever"]).message ≠ []) :=
  ⟨by norm_num, by decide, by decide, by decide,
    tools_return_message 70 175 65 (pstr "moderate") (pstr "Aspirin") 3 9 0 0
      [pstr "fever"] (by norm_num) (by decide) (by decide) (by decide)⟩

/-- Counterexample for C8: height_cm 0 matches the declared number schema
but calculate_bmi raises ZeroDivisionError instead of returning normally. -/
theorem tools_return_message_cx :
    calculate_bmi 70 0 = .error "float division by zero" := by
  norm_num [calculate_bmi]

-- ============= SESSION SERIALIZATION (health_agent.py) =============

/-- JSON values, restricted to the shapes the persisted session file uses. -/
inductive Json where
  | str (s : String)
  | arr (items : List Json)
  | obj (fields : List (String × Json))

/-- A message of HealthAgent.conversation_history: a role and content dict
(src/health_agent.py, lines 48-51, 85-88, 104-107). -/
structure HMsg where
  role : String
  content : String
deriving DecidableEq

/-- A symptom log entry (src/health_agent.py, lines 53-59). -/
structure SymptomEntry where
  timestamp : String
  symptom : String
deriving DecidableEq

/-- The session state HealthAgent.save_session persists. -/
structure Session where
  conversation : List HMsg
  symptoms : List SymptomEntry
  saved_at : String
deriving DecidableEq

/-- JSON form of one conversation message. -/
def encodeMsg (m : HMsg) : Json :=
  .obj [("role", .str m.role), ("content", .str m.content)]

/-- JSON form of one symptom entry. -/
def encodeSymptom (e : SymptomEntry) : Json :=
  .obj [("timestamp", .str e.timestamp), ("symptom", .str e.symptom)]

/-- Embedding of HealthAgent.save_session (src/health_agent.py, lines
114-125): the session_data dict written with json.dump, modelled at the
JSON-value level (the textual encoding json.dump/json.load is the identity
on JSON values). -/
def save_session_json (s : Session) : Json :=
  .obj [("conversation", .arr (s.conversation.map encodeMsg)),
        ("symptoms", .arr (s.symptoms.map encodeSymptom)),
        ("saved_at", .str s.saved_at)]

/-- Modelled from the spec: the repository has no loader for the persisted
session file, so reloading is modelled as reading the persisted shape back
(the spec: serializing a session to the persisted format and reloading must
reproduce an equivalent Conversation State and identical symptom entries). -/
def decodeMsg : Json → Option HMsg
  | .obj [("role", .str r), ("content", .str c)] => some ⟨r, c⟩
  | _ => none

/-- Modelled from the spec: inverse reading of one symptom entry. -/
def decodeSymptom : Json → Option SymptomEntry
  | .obj [("timestamp", .str t), ("symptom", .str s)] => some ⟨t, s⟩
  | _ => none

/-- Decode every element of a JSON array, failing if any element fails. -/
def decodeList {α : Type} (f : Json → Option α) : List Json → Option (List α)
  | [] => some []
  | j :: js =>
    match f j, decodeList f js with
    | some a, some as => some (a :: as)
    | _, _ => none

/-- Modelled from the spec: reload the persisted session file. -/
def load_session_json : Json → Option Session
  | .obj [("conversation", .arr ms), ("symptoms", .arr ss),
      ("saved_at", .str t)] =>
    match decodeList decodeMsg ms, decodeList decodeSymptom ss with
    | some conv, some sys => some ⟨conv, sys, t⟩
    | _, _ => none
  | _ => none

lemma decodeList_map_encode {α : Type} (f : Json → Option α) (g : α → Json)
    (hfg : ∀ a, f (g a) = some a) (l : List α) :
    decodeList f (l.map g) = some l := by
  induction l with
  | nil => rfl
  | cons a as ih =>
    simp only [List.map_cons, decodeList, hfg a, ih]

/-- C10: reloading the persisted JSON of a session reproduces the same
conversation messages (roles, contents, order) and the identical symptom
log entries. -/
theorem save_session_round_trip (s : Session) :
    load_session_json (save_session_json s) = some s := by
  simp only [save_session_json, load_session_json]
  rw [decodeList_map_encode decodeMsg encodeMsg (fun a => rfl),
      decodeList_map_encode decodeSymptom encodeSymptom (fun a => rfl)]
